import Mathlib

/-!
Verification of the sim-ioc core simulation logic.

This file gives a shallow embedding, in Lean, of the core simulation logic of
the sim-ioc soft-IOC simulator (the simioc Python package) and proves
properties of it:

* the BTPS range-comparison evaluator (simioc/db/btps.py, RangeComparison),
* the per-(source, destination) configuration checks (SourceConfig,
  CentroidConfig, DestinationConfig),
* the per-source shutter-safety routing (ShutterSafety),
* the LSS shutter permission gating (LssShutter),
* the periodic BTPS tick (BtpsState.sim_enable) together with its collaborator
  lookups and the gate-valve pass,
* the motor record simulator step loop (simioc/db/motor.py,
  motor_record_simulator).

Modelling conventions, fixed once for the whole file:

* Python floats are modelled as rational numbers and arithmetic on them is
  exact.  Where the value of a double literal matters to a claim, the literal
  is given its exact binary64 value (see float64_tenth), so a computation
  that is exact in binary64 - as every operation of the motor scenario below
  turns out to be - is evaluated precisely as the program evaluates it.
* Channel (PV) values that the source manipulates both as integers and as
  enum strings are modelled by the sum type PyVal below.  This reflects the
  behaviour the repository itself relies on: the helper write_if_differs in
  simioc/db/utils.py converts an integer written to an enum channel into the
  corresponding enum string before writing, and readers throughout btps.py
  defensively compare channel values against both forms, e.g.
  value in (1, "TRUE") - see simioc/db/btps.py lines 288, 472 and 519 (the
  latter carrying a "caproto bug" remark).  A value stored by a write stays
  exactly as written.
* Python truthiness of a channel value (used by the source in conditions such
  as "if not self.input_valid.value") is nonzero-ness for integers and
  non-emptiness for strings.
* awaitable channel writes become pure state updates; each simulate method
  becomes a Lean function from the old state (plus its read collaborators) to
  the new state.
* Python dict iteration (insertion order) becomes explicit association lists
  in the same order as the source constructs the dict.
-/

/-- A value stored in a caproto channel, as the simioc source observes it:
either a (Python) integer or an enum/string value. -/
inductive PyVal where
  | int (n : Int)
  | str (s : String)
deriving DecidableEq, Repr

/-- Python truthiness of a channel value: a number is truthy iff nonzero, a
string iff non-empty. -/
def PyVal.truthy : PyVal → Bool
  | .int n => n != 0
  | .str s => s != ""

/-- The test value in (1, "TRUE") used throughout simioc/db/btps.py for enum
channels with strings FALSE/TRUE. -/
def pyIsTrue (v : PyVal) : Bool :=
  v = .int 1 || v = .str "TRUE"

/-- The test value in (1, "In range") from SourceConfig.simulate
(simioc/db/btps.py line 288). -/
def pyInRange (v : PyVal) : Bool :=
  v = .int 1 || v = .str "In range"

/-- Result of writing integer index i to an enum channel through
write_if_differs (simioc/db/utils.py): the integer is first replaced by the
corresponding enum string, which is then stored. -/
def enumWrite (enumStrings : List String) (i : Nat) : PyVal :=
  .str (enumStrings.getD i "")

/-- State of a RangeComparison PVGroup (simioc/db/btps.py).  The low, nominal,
high and inclusive pairs are represented by their readback values (the
setpoint side merely mirrors into the readback); value is the float channel
Value_RBV; in_range and input_valid are enum channels and hence PyVal. -/
structure RangeComparison where
  value : ℚ
  in_range : PyVal
  input_valid : PyVal
  low : ℚ
  nominal : ℚ
  high : ℚ
  inclusive : ℚ
deriving DecidableEq, Repr

/-- Initial channel values of a RangeComparison, from the pvproperty
declarations: floats default to 0.0 and enum channels to integer 0. -/
def RangeComparison.init : RangeComparison :=
  { value := 0, in_range := .int 0, input_valid := .int 0,
    low := 0, nominal := 0, high := 0, inclusive := 0 }

/-- RangeComparison.set_nominal(value, atol): nominal gets value, low gets
value - atol, high gets value + atol (simioc/db/btps.py lines 170-174). -/
def RangeComparison.set_nominal (rc : RangeComparison) (v : ℚ) (atol : ℚ := 1/10) :
    RangeComparison :=
  { rc with nominal := v, low := v - atol, high := v + atol }

/-- RangeComparison.simulate(data_valid) (simioc/db/btps.py lines 176-189),
translated statement by statement:

* input_valid is written (via write_if_differs, hence as an enum string) with
  int(data_valid);
* the guard reads "if not self.input_valid.value or high < low" - the freshly
  written input_valid value, whose Python truthiness is tested;
* otherwise in_range is the inclusive or strict bounds check;
* in_range is written back as an enum string. -/
def RangeComparison.simulate (rc : RangeComparison) (data_valid : Bool := true) :
    RangeComparison :=
  let iv := enumWrite ["Data Invalid", "Data Valid"] (if data_valid then 1 else 0)
  let result : Bool :=
    if !iv.truthy || rc.high < rc.low then
      false
    else if rc.inclusive ≠ 0 then
      rc.low ≤ rc.value ∧ rc.value ≤ rc.high
    else
      rc.low < rc.value ∧ rc.value < rc.high
  { rc with
    input_valid := iv,
    in_range := enumWrite ["Out of range", "In range"] (if result then 1 else 0) }

/-- State of a CentroidConfig PVGroup: an X and a Y RangeComparison
(simioc/db/btps.py lines 192-207). -/
structure CentroidConfig where
  centroid_x : RangeComparison
  centroid_y : RangeComparison
deriving DecidableEq, Repr

/-- CentroidConfig.simulate(data_valid): each of the two checks is simulated
with its default argument; the data_valid parameter is not forwarded in the
source. -/
def CentroidConfig.simulate (cc : CentroidConfig) (_data_valid : Bool := true) :
    CentroidConfig :=
  { centroid_x := cc.centroid_x.simulate, centroid_y := cc.centroid_y.simulate }

/-- The three laser source indices 1, 5 and 8, the exact key set of the
dictionaries by_source, DestinationConfig.sources and BtpsState.shutters in
simioc/db/btps.py. -/
inductive SourceIndex where
  | s1
  | s5
  | s8
deriving DecidableEq, Repr

/-- The integer key of a source index. -/
def SourceIndex.toInt : SourceIndex → Int
  | .s1 => 1
  | .s5 => 5
  | .s8 => 8

/-- User readback positions of the nine motors of BtpsMotorsAndCameras
(simioc/db/btps.py lines 19-120): m1, m4, m7 are the linear stages, m2, m6,
m8 rotary, m3, m5, m9 goniometers.  Only these readbacks are read by the BTPS
simulation pass; the camera StatsPlugin subgroups are never read by it and
are omitted. -/
structure BtpsMotorsAndCameras where
  m1 : ℚ
  m2 : ℚ
  m3 : ℚ
  m4 : ℚ
  m5 : ℚ
  m6 : ℚ
  m7 : ℚ
  m8 : ℚ
  m9 : ℚ
deriving DecidableEq, Repr

/-- The linear-motor lookup dictionary of SourceConfig.simulate
(simioc/db/btps.py lines 273-277): source 1 reads motor m1, source 5 reads
m4, source 8 reads m7; the value read is the user readback. -/
def linearMotorReadback (motors : BtpsMotorsAndCameras) : SourceIndex → ℚ
  | .s1 => motors.m1
  | .s5 => motors.m4
  | .s8 => motors.m7

/-- State of a SourceConfig PVGroup: per-(source, destination) configuration
and checks (simioc/db/btps.py lines 210-259). -/
structure SourceConfig where
  name_ : String
  far_field : CentroidConfig
  near_field : CentroidConfig
  goniometer : RangeComparison
  linear : RangeComparison
  rotary : RangeComparison
  entry_valve_ready : PyVal
  checks_ok : PyVal
  data_valid : PyVal
  in_position : PyVal
deriving DecidableEq, Repr

/-- SourceConfig.simulate(source_idx, state, motors, valves, destination)
(simioc/db/btps.py lines 261-293), translated statement by statement.  Of its
collaborator arguments only motors is read in the body; state, valves and
destination are passed but unused in the source and are omitted here:

1. entry_valve_ready is written 1 (always ready);
2. the linear check value is written from the linear motor readback selected
   by source_idx;
3. linear, rotary and goniometer checks are simulated;
4. in_position is written int(linear.in_range.value in (1, "In range"));
5. both centroid configs are simulated. -/
def SourceConfig.simulate (sc : SourceConfig) (source_idx : SourceIndex)
    (motors : BtpsMotorsAndCameras) : SourceConfig :=
  let linear := { sc.linear with value := linearMotorReadback motors source_idx }.simulate
  { sc with
    entry_valve_ready := enumWrite ["Not ready", "Ready"] 1,
    linear := linear,
    rotary := sc.rotary.simulate,
    goniometer := sc.goniometer.simulate,
    in_position := enumWrite ["FALSE", "TRUE"] (if pyInRange linear.in_range then 1 else 0),
    near_field := sc.near_field.simulate,
    far_field := sc.far_field.simulate }

/-- State of a DestinationConfig PVGroup: one SourceConfig per laser source
plus destination-level channels (simioc/db/btps.py lines 296-356). -/
structure DestinationConfig where
  name_ : String
  ls1 : SourceConfig
  ls5 : SourceConfig
  ls8 : SourceConfig
  exit_valve_ready : PyVal
  yield_control : PyVal
deriving DecidableEq, Repr

/-- The dictionary DestinationConfig.sources: key 1 holds ls1, key 5 ls5,
key 8 ls8. -/
def DestinationConfig.sources (d : DestinationConfig) : SourceIndex → SourceConfig
  | .s1 => d.ls1
  | .s5 => d.ls5
  | .s8 => d.ls8

/-- DestinationConfig.simulate(state, motors, valves) (simioc/db/btps.py
lines 348-356): exit_valve_ready is written 1, then every source config is
simulated in dictionary order 1, 5, 8 (the three updates are independent). -/
def DestinationConfig.simulate (d : DestinationConfig)
    (motors : BtpsMotorsAndCameras) : DestinationConfig :=
  { d with
    exit_valve_ready := enumWrite ["Not ready", "Ready"] 1,
    ls1 := d.ls1.simulate .s1 motors,
    ls5 := d.ls5.simulate .s5 motors,
    ls8 := d.ls8.simulate .s8 motors }

/-- State of an LssShutter PVGroup (simioc/db/btps.py lines 514-563).  The
opened, closed and request-readback channels only ever receive boolean
content in the source (Python bools from _shutter_request, or the strings
FALSE and TRUE from _permission_change) and are modelled by that boolean
content; request_setpoint and permission can be written externally with
either an integer or an enum string and stay PyVal. -/
structure LssShutter where
  request_setpoint : PyVal
  request_readback : Bool
  opened : Bool
  closed : Bool
  permission : PyVal
deriving DecidableEq, Repr

/-- Initial channel values of an LssShutter: request, opened and closed
default to 0 and permission to 1 (simioc/db/btps.py line 558, a simulation
convenience noted in the source). -/
def LssShutter.init : LssShutter :=
  { request_setpoint := .int 0, request_readback := false,
    opened := false, closed := false, permission := .int 1 }

/-- LssShutter._shutter_request (simioc/db/btps.py lines 517-522), the putter
behind a write to the request setpoint, followed by the framework storing the
written value in the setpoint channel:

* open_request is the test value in (1, "TRUE");
* only if permission.value in (1, "TRUE") are opened and closed written with
  open_request and its negation;
* the request readback is always written with open_request. -/
def LssShutter.shutterRequest (s : LssShutter) (value : PyVal) : LssShutter :=
  let open_request := pyIsTrue value
  let s1 :=
    if pyIsTrue s.permission then
      { s with opened := open_request, closed := !open_request }
    else
      s
  { s1 with request_readback := open_request, request_setpoint := value }

/-- LssShutter._permission_change (simioc/db/btps.py lines 529-532), the
putter behind a write to the permission channel, followed by the framework
storing the written value: if the written value is in (0, "FALSE"), opened is
forced to FALSE and closed to TRUE; otherwise opened and closed are left
untouched. -/
def LssShutter.permissionChange (s : LssShutter) (value : PyVal) : LssShutter :=
  let s1 :=
    if value = .int 0 || value = .str "FALSE" then
      { s with opened := false, closed := true }
    else
      s
  { s1 with permission := value }

/-- State of the LssShutters PVGroup: one LssShutter per source
(simioc/db/btps.py lines 566-600). -/
structure LssShutters where
  ls1 : LssShutter
  ls5 : LssShutter
  ls8 : LssShutter
deriving DecidableEq, Repr

/-- The dictionary LssShutters.by_source. -/
def LssShutters.bySource (g : LssShutters) : SourceIndex → LssShutter
  | .s1 => g.ls1
  | .s5 => g.ls5
  | .s8 => g.ls8

/-- Replace the shutter stored under the given source key. -/
def LssShutters.setSource (g : LssShutters) : SourceIndex → LssShutter → LssShutters
  | .s1, s => { g with ls1 := s }
  | .s5, s => { g with ls5 := s }
  | .s8, s => { g with ls8 := s }

/-- State of a ShutterSafety PVGroup (simioc/db/btps.py lines 398-449).
open_request is the readback of the UserOpen pair, an enum channel whose
numeric raw value the source reads; it is modelled by its boolean content.
current_destination is a plain INT channel and stays an integer under
write_if_differs. -/
structure ShutterSafety where
  open_request : Bool
  latched_error : PyVal
  acknowledge : PyVal
  override : PyVal
  lss_open_request : PyVal
  safe_to_open : PyVal
  current_destination : Int
deriving DecidableEq, Repr

/-- Initial channel values of a ShutterSafety: enum channels default to 0 and
current_destination to 1 (simioc/db/btps.py line 445). -/
def ShutterSafety.init : ShutterSafety :=
  { open_request := false, latched_error := .int 0, acknowledge := .int 0,
    override := .int 0, lss_open_request := .int 0, safe_to_open := .int 0,
    current_destination := 1 }

/-- State of the BtpsState aggregate (simioc/db/btps.py lines 657-828): three
source shutters, fourteen destination configs and the sim_enable gate.  The
GlobalConfig and camera-status subgroups are never read or written by the
periodic tick and are omitted. -/
structure BtpsState where
  ls1 : ShutterSafety
  ls5 : ShutterSafety
  ls8 : ShutterSafety
  ld1 : DestinationConfig
  ld2 : DestinationConfig
  ld3 : DestinationConfig
  ld4 : DestinationConfig
  ld5 : DestinationConfig
  ld6 : DestinationConfig
  ld7 : DestinationConfig
  ld8 : DestinationConfig
  ld9 : DestinationConfig
  ld10 : DestinationConfig
  ld11 : DestinationConfig
  ld12 : DestinationConfig
  ld13 : DestinationConfig
  ld14 : DestinationConfig
  sim_enable : Int
deriving DecidableEq, Repr

/-- The dictionary BtpsState.destinations, in insertion order: keys 1 to 14
mapping to ld1 to ld14. -/
def BtpsState.destinations (st : BtpsState) : List (Int × DestinationConfig) :=
  [(1, st.ld1), (2, st.ld2), (3, st.ld3), (4, st.ld4), (5, st.ld5), (6, st.ld6),
   (7, st.ld7), (8, st.ld8), (9, st.ld9), (10, st.ld10), (11, st.ld11),
   (12, st.ld12), (13, st.ld13), (14, st.ld14)]

/-- The dictionary BtpsState.shutters, keyed by source index. -/
def BtpsState.shutterOf (st : BtpsState) : SourceIndex → ShutterSafety
  | .s1 => st.ls1
  | .s5 => st.ls5
  | .s8 => st.ls8

/-- The destination indices whose SourceConfig for the given source currently
reports in position: the marked_in_position list built by
ShutterSafety.simulate (simioc/db/btps.py lines 470-473), with membership test
value in (1, "TRUE"). -/
def markedInPosition (st : BtpsState) (source : SourceIndex) : List Int :=
  (st.destinations.filter (fun p => pyIsTrue ((p.2.sources source).in_position))).map Prod.fst

/-- The write_if_differs call of ShutterSafety.simulate that forwards the raw
open-request value to the LSS shutter request setpoint (simioc/db/btps.py
lines 465-468): the integer is converted to the FALSE/TRUE enum string; only
when that differs from the currently stored setpoint does the write happen,
triggering the _shutter_request putter. -/
def forwardOpenRequest (s : LssShutter) (raw : Nat) : LssShutter :=
  let proposed := enumWrite ["FALSE", "TRUE"] raw
  if proposed = s.request_setpoint then s else s.shutterRequest proposed

/-- ShutterSafety.simulate(source, state, lss_shutters, motors, valves)
(simioc/db/btps.py lines 451-485), translated statement by statement; motors
and valves are passed but unused in the source and are omitted here:

1. lss_open_request is written the raw open-request readback value (an enum
   index, converted to its string by write_if_differs);
2. the same raw value is forwarded to the request setpoint of the LSS shutter
   of this source;
3. marked_in_position collects, over all fourteen destinations in dictionary
   order, the indices whose source config reports in position;
4. current_destination is written 0 if no destination is marked, the unique
   marked index if exactly one is, and -1 otherwise. -/
def ShutterSafety.simulate (s : ShutterSafety) (source : SourceIndex)
    (st : BtpsState) (lss_shutters : LssShutters) : ShutterSafety × LssShutters :=
  let raw : Nat := if s.open_request then 1 else 0
  let s1 := { s with lss_open_request := enumWrite ["Request close", "Request open"] raw }
  let lss := lss_shutters.setSource source (forwardOpenRequest (lss_shutters.bySource source) raw)
  let current_dest : Int :=
    match markedInPosition st source with
    | [] => 0
    | [d] => d
    | _ => -1
  ({ s1 with current_destination := current_dest }, lss)

/-- State of a VGC gate valve PVGroup (simioc/db/valve.py lines 399-543; the
VGC class body redeclares every channel of its bases ValveBase, VVC and VRC,
so its own field list is the complete channel set).  Setpoint/readback pairs
are represented by one stored value.  Crucially, valve.py declares channels
only: neither VGC nor any of its bases defines any method (the file contains
no function definition at all), so there is no simulate method on a gate
valve. -/
structure VGC where
  open_command : PyVal
  interlock_ok : PyVal
  open_do : PyVal
  error_reset : PyVal
  override_status : PyVal
  override_force_open : PyVal
  state : PyVal
  open_limit : PyVal
  closed_limit : PyVal
  diff_press_ok : PyVal
  ext_ilk_ok : PyVal
  at_vac_setpoint : ℚ
  setpoint_hysterisis : ℚ
  at_vac : PyVal
  error : PyVal
  mps_state : PyVal
  interlock_device_upstream : String
  interlock_device_downstream : String
deriving DecidableEq, Repr

/-- Initial channel values of a VGC: every enum and numeric channel defaults
to 0 and the interlock device names to the empty string. -/
def VGC.init : VGC :=
  { open_command := .int 0, interlock_ok := .int 0, open_do := .int 0,
    error_reset := .int 0, override_status := .int 0, override_force_open := .int 0,
    state := .int 0, open_limit := .int 0, closed_limit := .int 0,
    diff_press_ok := .int 0, ext_ilk_ok := .int 0, at_vac_setpoint := 0,
    setpoint_hysterisis := 0, at_vac := .int 0, error := .int 0, mps_state := .int 0,
    interlock_device_upstream := "", interlock_device_downstream := "" }

/-- State of the BtsGateValves PVGroup (simioc/db/btps.py lines 603-654):
three source valves and seven destination valves. -/
structure BtsGateValves where
  ls1 : VGC
  ls5 : VGC
  ls8 : VGC
  ld2 : VGC
  ld4 : VGC
  ld6 : VGC
  ld8 : VGC
  ld9 : VGC
  ld10 : VGC
  ld14 : VGC
deriving DecidableEq, Repr

/-- All gate valves default-initialised. -/
def BtsGateValves.init : BtsGateValves :=
  { ls1 := VGC.init, ls5 := VGC.init, ls8 := VGC.init, ld2 := VGC.init,
    ld4 := VGC.init, ld6 := VGC.init, ld8 := VGC.init, ld9 := VGC.init,
    ld10 := VGC.init, ld14 := VGC.init }

/-- An error raised by the periodic tick body: either one of the two
RuntimeError branches of BtpsState.sim_enable, or a Python AttributeError
from a failed attribute lookup. -/
inductive TickError where
  | runtimeError (msg : String)
  | attributeError (msg : String)
deriving DecidableEq, Repr

/-- Attribute lookup of the name simulate on a VGC instance.  valve.py
defines no method on VGC or any of its bases (the whole file is channel
declarations), and the caproto PVGroup base class provides no such attribute
either, so the lookup fails; Python raises AttributeError at the call
valve.simulate() in BtpsState.sim_enable (simioc/db/btps.py line 796). -/
def VGC.simulateLookup : Option (VGC → VGC) := none

/-- One iteration of the gate-valve loop of the tick: call valve.simulate()
on a single valve, which resolves the simulate attribute first. -/
def VGC.simulateCall (v : VGC) : Except TickError VGC :=
  match VGC.simulateLookup with
  | some f => .ok (f v)
  | none => .error (.attributeError "VGC object has no attribute simulate")

/-- The gate-valve portion of the tick (simioc/db/btps.py lines 795-796):
valve.simulate() on every valve of by_source then by_destination, in
dictionary order, stopping at the first raised error. -/
def BtsGateValves.valvePass (g : BtsGateValves) : Except TickError BtsGateValves := do
  let ls1 ← g.ls1.simulateCall
  let ls5 ← g.ls5.simulateCall
  let ls8 ← g.ls8.simulateCall
  let ld2 ← g.ld2.simulateCall
  let ld4 ← g.ld4.simulateCall
  let ld6 ← g.ld6.simulateCall
  let ld8 ← g.ld8.simulateCall
  let ld9 ← g.ld9.simulateCall
  let ld10 ← g.ld10.simulateCall
  let ld14 ← g.ld14.simulateCall
  return { ls1 := ls1, ls5 := ls5, ls8 := ls8, ld2 := ld2, ld4 := ld4,
           ld6 := ld6, ld8 := ld8, ld9 := ld9, ld10 := ld10, ld14 := ld14 }

/-- The destination portion of the tick (simioc/db/btps.py lines 798-799):
dest.simulate(self, motors, valves) on each of the fourteen destinations in
dictionary order (each update touches only its own destination). -/
def BtpsState.destPass (st : BtpsState) (motors : BtpsMotorsAndCameras) : BtpsState :=
  { st with
    ld1 := st.ld1.simulate motors, ld2 := st.ld2.simulate motors,
    ld3 := st.ld3.simulate motors, ld4 := st.ld4.simulate motors,
    ld5 := st.ld5.simulate motors, ld6 := st.ld6.simulate motors,
    ld7 := st.ld7.simulate motors, ld8 := st.ld8.simulate motors,
    ld9 := st.ld9.simulate motors, ld10 := st.ld10.simulate motors,
    ld11 := st.ld11.simulate motors, ld12 := st.ld12.simulate motors,
    ld13 := st.ld13.simulate motors, ld14 := st.ld14.simulate motors }

/-- The shutter portion of the tick (simioc/db/btps.py lines 801-802):
shutter.simulate(idx, self, lss_shutters, motors, valves) for the three
source shutters in dictionary order 1, 5, 8; each call observes the state as
mutated by the preceding calls. -/
def BtpsState.shutterPass (st : BtpsState) (lss : LssShutters) :
    BtpsState × LssShutters :=
  let p1 := st.ls1.simulate .s1 st lss
  let st1 := { st with ls1 := p1.1 }
  let p5 := st1.ls5.simulate .s5 st1 p1.2
  let st5 := { st1 with ls5 := p5.1 }
  let p8 := st5.ls8.simulate .s8 st5 p5.2
  ({ st5 with ls8 := p8.1 }, p8.2)

/-- The parent IOC of a BtpsState, as the tick sees it: the three collaborator
subgroups it looks up by attribute name, each possibly absent.  In the full
simulator (simioc/ioc/btps.py, BtpsSimulator) all three are present. -/
structure ParentIOC where
  motors : Option BtpsMotorsAndCameras
  shutters : Option LssShutters
  gate_valves : Option BtsGateValves
deriving DecidableEq, Repr

/-- Outcome of one invocation of the periodic tick body: an early silent
return, a raised error, or the updated state of all mutated groups. -/
inductive TickOutcome where
  | noop
  | fatal (e : TickError)
  | ok (st : BtpsState) (shutters : LssShutters) (valves : BtsGateValves)
deriving DecidableEq, Repr

/-- The periodic tick body BtpsState.sim_enable (simioc/db/btps.py lines
765-802), translated statement by statement:

1. if the sim_enable channel value is 0, return;
2. if there is no parent, return;
3. look up parent.motors and parent.shutters; on AttributeError raise a
   RuntimeError naming the missing collaborators (quotation marks of the
   original message elided);
4. look up parent.gate_valves; on AttributeError raise a RuntimeError;
5. run the gate-valve pass, the destination pass and the shutter pass in that
   order. -/
def simEnableTick (st : BtpsState) (parent : Option ParentIOC) : TickOutcome :=
  if st.sim_enable = 0 then
    .noop
  else
    match parent with
    | none => .noop
    | some p =>
      match p.motors, p.shutters with
      | some motors, some lss =>
        match p.gate_valves with
        | some valves =>
          match valves.valvePass with
          | .error e => .fatal e
          | .ok valves1 =>
            let st1 := st.destPass motors
            let p2 := st1.shutterPass lss
            .ok p2.1 p2.2 valves1
        | none =>
          .fatal (.runtimeError
            "To enable simulations, include a BtsGateValves SubGroup in the IOC named gate_valves.")
      | _, _ =>
        .fatal (.runtimeError
          "To enable simulations, include a BtpsMotorsAndCameras SubGroup in the IOC named motors and an LssShutters instance named shutters.")

/-- Initial channel values of a SourceConfig: the name defaults to "name",
in_position to the string FALSE (its declared value), the other enum channels
to 0, and every range comparison to its own defaults. -/
def SourceConfig.init : SourceConfig :=
  { name_ := "name",
    far_field := ⟨RangeComparison.init, RangeComparison.init⟩,
    near_field := ⟨RangeComparison.init, RangeComparison.init⟩,
    goniometer := RangeComparison.init, linear := RangeComparison.init,
    rotary := RangeComparison.init, entry_valve_ready := .int 0,
    checks_ok := .int 0, data_valid := .int 0, in_position := .str "FALSE" }

/-- Initial channel values of a DestinationConfig with the given destination
name (the constructor argument destination_name, default Unknown):
yield_control declares value 1 and exit_valve_ready defaults to 0. -/
def DestinationConfig.init (name : String := "Unknown") : DestinationConfig :=
  { name_ := name, ls1 := SourceConfig.init, ls5 := SourceConfig.init,
    ls8 := SourceConfig.init, exit_valve_ready := .int 0, yield_control := .int 1 }

/-- Initial state of the BtpsState aggregate, with the destination names given
in simioc/db/btps.py lines 684-760 and sim_enable declared value 1. -/
def BtpsState.init : BtpsState :=
  { ls1 := ShutterSafety.init, ls5 := ShutterSafety.init, ls8 := ShutterSafety.init,
    ld1 := DestinationConfig.init, ld2 := DestinationConfig.init "TMO IP3",
    ld3 := DestinationConfig.init, ld4 := DestinationConfig.init "RIX ChemRIXS",
    ld5 := DestinationConfig.init, ld6 := DestinationConfig.init "RIX QRIXS",
    ld7 := DestinationConfig.init, ld8 := DestinationConfig.init "TMO IP1",
    ld9 := DestinationConfig.init "Laser Lab", ld10 := DestinationConfig.init "TMO IP2",
    ld11 := DestinationConfig.init, ld12 := DestinationConfig.init,
    ld13 := DestinationConfig.init, ld14 := DestinationConfig.init "XPP",
    sim_enable := 1 }

/-- All three LSS shutters default-initialised. -/
def LssShutters.init : LssShutters :=
  { ls1 := LssShutter.init, ls5 := LssShutter.init, ls8 := LssShutter.init }

/-- The motor readbacks at IOC startup for BtpsMotorsAndCameras: every motor
starts at position 0 except m7, declared with position 405
(simioc/db/btps.py lines 66-72). -/
def BtpsMotorsAndCameras.init : BtpsMotorsAndCameras :=
  { m1 := 0, m2 := 0, m3 := 0, m4 := 0, m5 := 0, m6 := 0, m7 := 405, m8 := 0, m9 := 0 }

/-- One commanded move of the motor record simulator
(simioc/db/motor.py lines 80-126): the setpoint target, the readback at the
start of the command, the velocity field and the tick duration
dwell = 1 / tick_rate_hz. -/
structure MoveCmd where
  r0 : ℚ
  target : ℚ
  velocity : ℚ
  dwell : ℚ
deriving DecidableEq, Repr

/-- num_steps = int(total_time // dwell) with total_time = abs(diff) /
velocity (simioc/db/motor.py lines 83-88): the floor of the rational
quotient, clamped at zero.  For positive operands, Python float floor
division returns exactly the floor of the true quotient of the two machine
values (it is derived from the exact fmod remainder, and the step counts
arising here are far below 2 ^ 53), and int() of that nonnegative integral
float is the same integer; so on a command whose fields hold the exact
rational values of the binary64 doubles the program computes with, this is
exactly the num_steps of the program. -/
def MoveCmd.numSteps (c : MoveCmd) : ℕ :=
  (⌊(|c.target - c.r0| / c.velocity) / c.dwell⌋).toNat

/-- step_size = diff / num_steps if num_steps > 0 else 0.0
(simioc/db/motor.py line 102). -/
def MoveCmd.stepSize (c : MoveCmd) : ℚ :=
  if c.numSteps > 0 then (c.target - c.r0) / c.numSteps else 0

/-- The motor state left behind by one move command: the readback and
setpoint channels, the stop flag, and the motor_is_moving and done flags
written after the step loop (simioc/db/motor.py lines 105-126). -/
structure MoveResult where
  readback : ℚ
  setpoint : ℚ
  stop : Bool
  moving : Bool
  done : Bool
deriving DecidableEq, Repr

/-- The step loop of motor_record_simulator (simioc/db/motor.py lines
105-126), with the writes after the loop folded in.  Arguments: stopF i and
spgStop i give the value of the stop field and of the test
stop_pause_move_go == "Stop" as observed by the check at the top of iteration
i (iterations are numbered from 1); then the remaining step count, the
current iteration number and the current readback.  Returned are the list of
(readback, moving) observations written during each executed iteration and
the final state:

* stop set: stop is written 0, the setpoint is written the current readback,
  the loop breaks; then moving is written 0 and done 1;
* stop-pause-go at Stop: as above but without touching the stop flag (which
  is false for the whole command: it is cleared before the loop and a set
  flag is consumed by the stop branch);
* otherwise the readback advances by the step size and is written out, and
  the loop continues;
* loop exhausted: the readback is written the exact target. -/
def moveSteps (stopF spgStop : ℕ → Bool) (step tgt : ℚ) :
    ℕ → ℕ → ℚ → List (ℚ × Bool) × MoveResult
  | 0, _, _ => ([], ⟨tgt, tgt, false, false, true⟩)
  | n + 1, i, r =>
    if stopF i then
      ([], ⟨r, r, false, false, true⟩)
    else if spgStop i then
      ([], ⟨r, r, false, false, true⟩)
    else
      let rest := moveSteps stopF spgStop step tgt n (i + 1) (r + step)
      ((r + step, true) :: rest.1, rest.2)

/-- One full move command: num_steps and step size are computed from the
command, then the step loop runs from iteration 1 at the starting readback. -/
def runMove (c : MoveCmd) (stopF spgStop : ℕ → Bool) : List (ℚ × Bool) × MoveResult :=
  moveSteps stopF spgStop c.stepSize c.target c.numSteps 1 c.r0

/-- The (readback, moving) pair observed during tick k (numbered from 1) of
an unstopped move command: during ticks 1 to num_steps the per-step writes,
at tick num_steps + 1 the final snap to the target with moving cleared, and
from then on the same values, since the idle branch of the simulator loop
(simioc/db/motor.py lines 89-93) performs no writes. -/
def moveObs (c : MoveCmd) (k : ℕ) : ℚ × Bool :=
  let run := runMove c (fun _ => false) (fun _ => false)
  (run.1 ++ [(run.2.readback, run.2.moving)]).getD (k - 1) (run.2.readback, run.2.moving)

/-- The exact rational value of the IEEE-754 binary64 double computed by the
Python expression 1. / 10. - the dwell of the 10 Hz motor simulator:
rounding 1/10 to nearest-even gives 3602879701896397 * 2 ^ -55, slightly
above 1/10.  Using it as the dwell of a MoveCmd makes the rational motor
model evaluate the program exactly in the 50-unit scenario, where every
other operation - 50.0 - 0.0, 50.0 / 100.0, the floor division (value 4),
50.0 / 4 and the four step accumulations by 12.5 - is exact in binary64. -/
def float64_tenth : ℚ := 3602879701896397 / 2 ^ 55

lemma RangeComparison.simulate_value (rc : RangeComparison) (dv : Bool) :
    (rc.simulate dv).value = rc.value := rfl

lemma enumWrite_range_cases (b : Bool) :
    enumWrite ["Out of range", "In range"] (if b then 1 else 0) = .str "In range" ∨
      enumWrite ["Out of range", "In range"] (if b then 1 else 0) = .str "Out of range" := by
  cases b <;> simp [enumWrite]

lemma RangeComparison.simulate_in_range_cases (rc : RangeComparison) (dv : Bool) :
    (rc.simulate dv).in_range = .str "In range" ∨
      (rc.simulate dv).in_range = .str "Out of range" :=
  enumWrite_range_cases _

/-- C2: the claim predicts in_range = false whenever input_valid is false, but
the guard in RangeComparison.simulate tests the Python truthiness of the
freshly written input_valid channel value, which write_if_differs has
converted to the enum string Data Invalid - a non-empty, hence truthy,
string.  Evaluating the embedded code at value 1/2, bounds [0, 1], inclusive,
with data_valid false: the input is recorded as invalid yet in_range comes
out In range. -/
theorem c2_invalid_input_still_in_range :
    (RangeComparison.simulate
        { value := 1/2, in_range := .int 0, input_valid := .int 0,
          low := 0, nominal := 0, high := 1, inclusive := 1 } false).input_valid
        = .str "Data Invalid" ∧
    (RangeComparison.simulate
        { value := 1/2, in_range := .int 0, input_valid := .int 0,
          low := 0, nominal := 0, high := 1, inclusive := 1 } false).in_range
        = .str "In range" := by
  constructor <;>
    norm_num [RangeComparison.simulate, enumWrite, PyVal.truthy] <;> rfl

/-- C5: in SourceConfig.simulate the linear check value is read from the
linear motor selected by the source index - source 1 from m1, source 5 from
m4, source 8 from m7 - and after the checks run, in_position reads TRUE
exactly when the linear range comparison reads In range. -/
theorem c5_linear_motor_selection_and_in_position (sc : SourceConfig)
    (motors : BtpsMotorsAndCameras) :
    (sc.simulate .s1 motors).linear.value = motors.m1 ∧
    (sc.simulate .s5 motors).linear.value = motors.m4 ∧
    (sc.simulate .s8 motors).linear.value = motors.m7 ∧
    ∀ source : SourceIndex,
      ((sc.simulate source motors).in_position = .str "TRUE" ↔
        (sc.simulate source motors).linear.in_range = .str "In range") := by
  refine ⟨?_, ?_, ?_, ?_⟩
  · simp [SourceConfig.simulate, RangeComparison.simulate_value, linearMotorReadback]
  · simp [SourceConfig.simulate, RangeComparison.simulate_value, linearMotorReadback]
  · simp [SourceConfig.simulate, RangeComparison.simulate_value, linearMotorReadback]
  · intro source
    simp only [SourceConfig.simulate]
    rcases RangeComparison.simulate_in_range_cases
        { sc.linear with value := linearMotorReadback motors source } true with h | h <;>
      simp [h, enumWrite, pyInRange]

/-- C6: a write to the LSS shutter request always updates the request
readback to the written truth value; the opened and closed outputs are
rewritten (to the request value and its negation) exactly when permission is
currently granted, and are left untouched otherwise. -/
theorem c6_request_gated_by_permission (s : LssShutter) (v : PyVal) :
    ((s.shutterRequest v).request_readback = pyIsTrue v) ∧
    ((s.shutterRequest v).opened =
      (if pyIsTrue s.permission then pyIsTrue v else s.opened)) ∧
    ((s.shutterRequest v).closed =
      (if pyIsTrue s.permission then !(pyIsTrue v) else s.closed)) := by
  unfold LssShutter.shutterRequest
  by_cases h : pyIsTrue s.permission <;> simp [h]

/-- C10: writing FALSE (as integer 0 or enum string) to the LSS permission
channel immediately forces opened FALSE and closed TRUE whatever the pending
request is; writing TRUE leaves opened and closed untouched, and only the
next request write (honoured, since permission is now TRUE) sets them. -/
theorem c10_permission_false_forces_closed (s : LssShutter) :
    ((s.permissionChange (.int 0)).opened = false ∧
      (s.permissionChange (.int 0)).closed = true) ∧
    ((s.permissionChange (.str "FALSE")).opened = false ∧
      (s.permissionChange (.str "FALSE")).closed = true) ∧
    ((s.permissionChange (.int 1)).opened = s.opened ∧
      (s.permissionChange (.int 1)).closed = s.closed) ∧
    ((s.permissionChange (.str "TRUE")).opened = s.opened ∧
      (s.permissionChange (.str "TRUE")).closed = s.closed) ∧
    (∀ v : PyVal,
      (((s.permissionChange (.str "TRUE")).shutterRequest v).opened = pyIsTrue v ∧
        ((s.permissionChange (.str "TRUE")).shutterRequest v).closed = !(pyIsTrue v)) ∧
      (((s.permissionChange (.int 1)).shutterRequest v).opened = pyIsTrue v ∧
        ((s.permissionChange (.int 1)).shutterRequest v).closed = !(pyIsTrue v))) := by
  refine ⟨by simp [LssShutter.permissionChange], by simp [LssShutter.permissionChange],
    by simp [LssShutter.permissionChange], by simp [LssShutter.permissionChange], ?_⟩
  intro v
  simp [LssShutter.permissionChange, LssShutter.shutterRequest, pyIsTrue]

/-- C1: the shutter-safety pass classifies the current destination of a
source from the destinations currently reporting that source in position:
none marked gives 0 (unknown), exactly one marked gives that destination
index, and two or more marked give -1 (misconfiguration). -/
theorem c1_current_destination_classification (s : ShutterSafety)
    (source : SourceIndex) (st : BtpsState) (lss : LssShutters) :
    (st.destinations.countP (fun p => pyIsTrue ((p.2.sources source).in_position)) = 0 →
      (s.simulate source st lss).1.current_destination = 0) ∧
    (∀ d : Int, markedInPosition st source = [d] →
      (s.simulate source st lss).1.current_destination = d) ∧
    (2 ≤ st.destinations.countP (fun p => pyIsTrue ((p.2.sources source).in_position)) →
      (s.simulate source st lss).1.current_destination = -1) := by
  have hlen : (markedInPosition st source).length
      = st.destinations.countP (fun p => pyIsTrue ((p.2.sources source).in_position)) := by
    simp [markedInPosition, List.countP_eq_length_filter]
  refine ⟨?_, ?_, ?_⟩
  · intro h0
    have hnil : markedInPosition st source = [] := by
      have := hlen.trans h0
      exact List.eq_nil_of_length_eq_zero this
    simp [ShutterSafety.simulate, hnil]
  · intro d hd
    simp [ShutterSafety.simulate, hd]
  · intro h2
    have hlen2 : 2 ≤ (markedInPosition st source).length := by
      rw [hlen]
      exact h2
    rcases hm : markedInPosition st source with _ | ⟨a, _ | ⟨b, tl⟩⟩
    · rw [hm] at hlen2
      simp at hlen2
    · rw [hm] at hlen2
      simp at hlen2
    · simp [ShutterSafety.simulate, hm]

theorem c1_current_destination_classification_witness :
    ((BtpsState.init.destinations.countP
        (fun p => pyIsTrue ((p.2.sources .s1).in_position)) = 0) ∧
      (ShutterSafety.init.simulate .s1 BtpsState.init LssShutters.init).1.current_destination
        = 0) ∧
    (markedInPosition
        { BtpsState.init with
          ld8 := { BtpsState.init.ld8 with
            ls1 := { SourceConfig.init with in_position := .str "TRUE" } } } .s1 = [8] ∧
      (ShutterSafety.init.simulate .s1
          { BtpsState.init with
            ld8 := { BtpsState.init.ld8 with
              ls1 := { SourceConfig.init with in_position := .str "TRUE" } } }
          LssShutters.init).1.current_destination = 8) := by
  refine ⟨⟨by decide, ?_⟩, ⟨by decide, ?_⟩⟩
  · exact (c1_current_destination_classification ShutterSafety.init .s1 BtpsState.init
      LssShutters.init).1 (by decide)
  · exact (c1_current_destination_classification ShutterSafety.init .s1 _
      LssShutters.init).2.1 8 (by decide)

/-- C7: the claim predicts that the gate-valve portion of the tick completes
without error as a no-op, but valve.py defines no simulate method anywhere in
the VGC hierarchy, so the very first call valve.simulate() of the per-tick
pass raises AttributeError, and the tick with all collaborators wired ends
fatally instead of completing. -/
theorem c7_gate_valve_pass_raises (st : BtpsState) (motors : BtpsMotorsAndCameras)
    (lss : LssShutters) (valves : BtsGateValves) (h : st.sim_enable ≠ 0) :
    valves.valvePass = .error (.attributeError "VGC object has no attribute simulate") ∧
    simEnableTick st (some ⟨some motors, some lss, some valves⟩) =
      .fatal (.attributeError "VGC object has no attribute simulate") := by
  have hv : valves.valvePass
      = .error (.attributeError "VGC object has no attribute simulate") := rfl
  refine ⟨hv, ?_⟩
  simp [simEnableTick, h, hv]

theorem c7_gate_valve_pass_raises_witness :
    simEnableTick BtpsState.init
        (some ⟨some BtpsMotorsAndCameras.init, some LssShutters.init, some BtsGateValves.init⟩) =
      .fatal (.attributeError "VGC object has no attribute simulate") :=
  (c7_gate_valve_pass_raises BtpsState.init BtpsMotorsAndCameras.init LssShutters.init
    BtsGateValves.init (by decide)).2

/-- C8: the claim that ShutterSafety.simulate is a no-op is false at the
initial state: current_destination starts at 1, but one simulate call with no
destination in position writes it to 0 (and lss_open_request changes as
well). -/
theorem c8_simulate_not_noop :
    (ShutterSafety.init.simulate .s1 BtpsState.init LssShutters.init).1.current_destination
        = 0 ∧
    ShutterSafety.init.current_destination = 1 := by
  constructor
  · decide
  · rfl

/-- C8 (amended): ShutterSafety.simulate is not a no-op - it rewrites
lss_open_request from the open-request readback and recomputes
current_destination from the in-position flags - but it does leave
open_request, latched_error, acknowledge, override and safe_to_open
unchanged, and it touches no LSS shutter other than the one of its source. -/
theorem c8_simulate_updates_and_frame (s : ShutterSafety) (source : SourceIndex)
    (st : BtpsState) (lss : LssShutters) :
    ((s.simulate source st lss).1.open_request = s.open_request) ∧
    ((s.simulate source st lss).1.latched_error = s.latched_error) ∧
    ((s.simulate source st lss).1.acknowledge = s.acknowledge) ∧
    ((s.simulate source st lss).1.override = s.override) ∧
    ((s.simulate source st lss).1.safe_to_open = s.safe_to_open) ∧
    ((s.simulate source st lss).1.lss_open_request =
      enumWrite ["Request close", "Request open"] (if s.open_request then 1 else 0)) ∧
    (∀ src2 : SourceIndex, src2 ≠ source →
      (s.simulate source st lss).2.bySource src2 = lss.bySource src2) := by
  refine ⟨rfl, rfl, rfl, rfl, rfl, rfl, ?_⟩
  intro src2 hne
  cases source <;> cases src2 <;>
    simp_all [ShutterSafety.simulate, LssShutters.setSource, LssShutters.bySource]

theorem c8_simulate_updates_and_frame_witness :
    (ShutterSafety.init.simulate .s1 BtpsState.init LssShutters.init).2.bySource .s5 =
      LssShutters.init.bySource .s5 :=
  (c8_simulate_updates_and_frame ShutterSafety.init .s1 BtpsState.init
    LssShutters.init).2.2.2.2.2.2 .s5 (by decide)

/-- C9: if the parent IOC is missing the motors or shutters subgroup, or the
gate-valves subgroup, a tick with sim_enable nonzero raises a RuntimeError
instead of silently simulating with default state. -/
theorem c9_missing_collaborator_fatal (st : BtpsState) (p : ParentIOC)
    (h : st.sim_enable ≠ 0)
    (hmissing : p.motors = none ∨ p.shutters = none ∨ p.gate_valves = none) :
    ∃ msg, simEnableTick st (some p) = .fatal (.runtimeError msg) := by
  obtain ⟨m, sh, v⟩ := p
  rcases m with _ | m <;> rcases sh with _ | sh <;> rcases v with _ | v <;>
    simp_all [simEnableTick, h]

theorem c9_missing_collaborator_fatal_witness :
    ∃ msg, simEnableTick BtpsState.init
        (some ⟨none, some LssShutters.init, some BtsGateValves.init⟩) =
      .fatal (.runtimeError msg) :=
  c9_missing_collaborator_fatal BtpsState.init
    ⟨none, some LssShutters.init, some BtsGateValves.init⟩ (by decide) (Or.inl rfl)

lemma moveSteps_stop (step tgt : ℚ) (k : ℕ) :
    ∀ n i r, i ≤ k → k < i + n →
      (moveSteps (fun j => decide (k ≤ j)) (fun _ => false) step tgt n i r).2 =
          ⟨r + (k - i : ℕ) * step, r + (k - i : ℕ) * step, false, false, true⟩ ∧
      (moveSteps (fun j => decide (k ≤ j)) (fun _ => false) step tgt n i r).1.length
          = k - i := by
  intro n
  induction n with
  | zero =>
    intro i r h1 h2
    omega
  | succ n ih =>
    intro i r h1 h2
    by_cases hik : k ≤ i
    · have hi : i = k := le_antisymm h1 hik
      subst hi
      simp [moveSteps]
    · have hlt : i < k := lt_of_not_ge hik
      have hstop : (decide (k ≤ i)) = false := by
        simp
        omega
      have hrest := ih (i + 1) (r + step) (by omega) (by omega)
      rw [moveSteps]
      simp only [hstop, Bool.false_eq_true, if_false]
      refine ⟨?_, ?_⟩
      · rw [hrest.1]
        have hk : (k - i : ℕ) = (k - (i + 1) : ℕ) + 1 := by omega
        rw [hk]
        push_cast
        ring_nf
      · simp [hrest.2]
        omega

/-- C4: if the stop flag becomes set during a move so that it is first
observed at the check of step k (with k within the commanded steps), the step
loop breaks there: the readback stays exactly at its value after the k - 1
steps already taken (its value at the instant of stop), only k - 1 step
writes ever happened, the stop flag is cleared, and moving is false (with
done set) as soon as the loop exits. -/
theorem c4_stop_leaves_readback (c : MoveCmd) (k : ℕ) (h1 : 1 ≤ k)
    (h2 : k ≤ c.numSteps) :
    (runMove c (fun j => decide (k ≤ j)) (fun _ => false)).2 =
      ⟨c.r0 + (k - 1 : ℕ) * c.stepSize, c.r0 + (k - 1 : ℕ) * c.stepSize,
        false, false, true⟩ ∧
    (runMove c (fun j => decide (k ≤ j)) (fun _ => false)).1.length = k - 1 := by
  unfold runMove
  exact moveSteps_stop c.stepSize c.target k c.numSteps 1 c.r0 h1 (by omega)

theorem c4_stop_leaves_readback_witness :
    (runMove ⟨0, 50, 100, 1/10⟩ (fun j => decide (3 ≤ j)) (fun _ => false)).2 =
      ⟨20, 20, false, false, true⟩ ∧
    (runMove ⟨0, 50, 100, 1/10⟩ (fun j => decide (3 ≤ j)) (fun _ => false)).1.length
      = 2 := by
  have hn : MoveCmd.numSteps ⟨0, 50, 100, 1/10⟩ = 5 := by
    norm_num [MoveCmd.numSteps]
    decide
  have hs : MoveCmd.stepSize ⟨0, 50, 100, 1/10⟩ = 10 := by
    norm_num [MoveCmd.stepSize, hn]
  have h := c4_stop_leaves_readback ⟨0, 50, 100, 1/10⟩ 3 (by norm_num)
    (by rw [hn]; norm_num)
  rw [hs] at h
  norm_num at h
  exact h

/-- C3: the claim predicts num_steps = floor((50/100)/0.1) = 5 steps of size
10 with moving true through tick 5, but the program divides by the binary64
dwell 1./10, which is slightly above 1/10, so num_steps = int(0.5 // 0.1)
= 4: the move runs 4 steps of size 12.5, the readback is exactly 50 after 4
ticks, and the observation at tick 5 is already readback 50 with moving
false. -/
theorem c3_float_floor_division_gives_four_steps :
    (MoveCmd.numSteps ⟨0, 50, 100, float64_tenth⟩ = 4) ∧
    (MoveCmd.stepSize ⟨0, 50, 100, float64_tenth⟩ = 25 / 2) ∧
    (runMove ⟨0, 50, 100, float64_tenth⟩ (fun _ => false) (fun _ => false) =
      ([(25 / 2, true), (25, true), (75 / 2, true), (50, true)],
        ⟨50, 50, false, false, true⟩)) ∧
    (moveObs ⟨0, 50, 100, float64_tenth⟩ 5 = (50, false)) := by
  have hfloor : ⌊(50 : ℚ) / 100 / float64_tenth⌋ = (4 : ℤ) := by
    rw [Int.floor_eq_iff]
    constructor <;> norm_num [float64_tenth]
  have hn : MoveCmd.numSteps ⟨0, 50, 100, float64_tenth⟩ = 4 := by
    simp [MoveCmd.numSteps, hfloor]
  have hs : MoveCmd.stepSize ⟨0, 50, 100, float64_tenth⟩ = 25 / 2 := by
    norm_num [MoveCmd.stepSize, hn]
  have hrun : runMove ⟨0, 50, 100, float64_tenth⟩ (fun _ => false) (fun _ => false) =
      ([(25 / 2, true), (25, true), (75 / 2, true), (50, true)],
        ⟨50, 50, false, false, true⟩) := by
    unfold runMove
    rw [hn, hs]
    norm_num [moveSteps]
  refine ⟨hn, hs, hrun, ?_⟩
  simp only [moveObs]
  rw [hrun]
  norm_num
